import Mathlib

/-!
Verification of the control loop and persistence protocol of the Brain class
in becca/core/brain.py: construction, the per-timestep sense-act-learn cycle,
top-down goal propagation, periodic backup triggering, and the dual-file
save/restore protocol with dimensional validation.

The external collaborators Level (level.py) and Affect (affect.py) are not
among the analysed sources; brain.py only constructs them and calls their
methods. They are therefore treated as parameters: an arbitrary level-step
function and an arbitrary affect-update function. The one behavioural
contract the spec states for the level collaborator is given as an explicit
predicate. File-path and name bookkeeping fields of the Brain (name,
log_dir, pickle_filename) are omitted; the contents of the two checkpoint
files are modelled explicitly where the persistence claims need them.

Values carried by sensor, action and goal vectors are modelled as rationals:
brain.py itself performs no arithmetic on them, only concatenation, copying
and slicing.
-/

namespace Becca

/-- One level of the hierarchy. Modelled from the spec: the Level class of
level.py is not among the analysed sources. The spec gives its constructor
arguments (a level index and the element and sequence widths), a mutable
sequence-goals slot and a readable element-goals slot, the goal slots
defaulting to neutral zero. -/
structure Level where
  levelIndex : Nat
  numElements : Nat
  numSequences : Nat
  elementGoals : List ℚ
  sequenceGoals : List ℚ
  deriving DecidableEq

/-- Modelled from the spec: Level construction stores the given index and
widths and defaults both goal slots to zero vectors of the matching width. -/
def Level.init (levelIndex numElements numSequences : Nat) : Level :=
  { levelIndex := levelIndex
  , numElements := numElements
  , numSequences := numSequences
  , elementGoals := List.replicate numElements 0
  , sequenceGoals := List.replicate numSequences 0 }

/-- The state of a Brain (brain.py, attributes set in Brain.__init__):
the configured dimensions, the backup interval, the affect-tracker state,
the current satisfaction, the level stack, the stored full action vector
and the timestep counter. The affect state is an arbitrary type parameter,
since affect.py is an external collaborator. The path and name fields of
the source are omitted. -/
structure Brain (α : Type) where
  num_sensors : Nat
  num_actions : Nat
  backup_interval : Nat
  affect : α
  satisfaction : ℚ
  levels : List Level
  actions : List ℚ
  timestep : Nat
  deriving DecidableEq

/-- Brain.__init__ (brain.py lines 56-85): stores num_sensors, sets
num_actions to the configured count plus one (the extra reserved
do-nothing action), backup_interval to 100000, satisfaction to 0, builds
the single level 0 with numElements equal to num_sensors + num_actions and
numSequences equal to 3 * numElements, seeds actions as the zero vector of
length num_actions, and sets timestep to 0. -/
def Brain.init (num_sensors num_actions : Nat) (affect0 : α) : Brain α :=
  { num_sensors := num_sensors
  , num_actions := num_actions + 1
  , backup_interval := 100000
  , affect := affect0
  , satisfaction := 0
  , levels := [Level.init 0 (num_sensors + (num_actions + 1))
                 (3 * (num_sensors + (num_actions + 1)))]
  , actions := List.replicate (num_actions + 1) 0
  , timestep := 0 }

/-- The failure modes caught by backup and restore (brain.py lines 213-218
and 256-260): file input/output errors and pickling errors. -/
inductive PersistError where
  | ioError
  | pickleError
  deriving DecidableEq

/-- Brain.backup (brain.py lines 192-221): attempts the primary write;
only when it succeeds attempts the second, backup write; a caught failure
of either write leaves success at false, and success is true exactly when
both writes completed. The two write outcomes are parameters; the second
is a thunk because the source only reaches it after the first write
returned. -/
def Brain.backup (w1 : Except PersistError Unit)
    (w2 : Unit → Except PersistError Unit) : Bool :=
  match w1 with
  | .error _ => false
  | .ok _ =>
      match w2 () with
      | .error _ => false
      | .ok _ => true

/-- Brain.restore (brain.py lines 224-261): restored_brain starts as the
freshly initialised brain; on a load failure (the file could not be opened,
or unpickling failed) it is returned unchanged; on a successful load the
loaded brain replaces it exactly when both dimension fields match the live
configuration. -/
def Brain.restore (fresh : Brain α) (load : Except PersistError (Brain α)) :
    Brain α :=
  match load with
  | .error _ => fresh
  | .ok loaded =>
      if loaded.num_sensors = fresh.num_sensors ∧
          loaded.num_actions = fresh.num_actions then
        loaded
      else
        fresh

/-- The spec view of the restore outcome (RestoredState or None): some
loaded state exactly when the load succeeded and the dimensions match,
none otherwise. The source realises the none case by returning the fresh
brain itself. -/
def Brain.restoreAccepted (fresh : Brain α)
    (load : Except PersistError (Brain α)) : Option (Brain α) :=
  match load with
  | .error _ => none
  | .ok loaded =>
      if loaded.num_sensors = fresh.num_sensors ∧
          loaded.num_actions = fresh.num_actions then
        some loaded
      else
        none

/-- The two checkpoint locations, name.pickle and name.pickle.bak; none
models a missing or corrupt (unloadable) file. -/
structure Files (α : Type) where
  primary : Option (Brain α)
  bak : Option (Brain α)
  deriving DecidableEq

/-- The file-level effect of a completed Brain.backup (brain.py lines
204-212): the same full state is written first to the primary location and
then, by a separate write, to the backup location. -/
def backupFiles (b : Brain α) (_fs : Files α) : Files α :=
  { primary := some b, bak := some b }

/-- Brain.restore reads only the primary location (brain.py line 236
opens self.pickle_filename); a missing or corrupt primary is an ioError.
The backup location is never consulted by restore. -/
def loadPrimary (fs : Files α) : Except PersistError (Brain α) :=
  match fs.primary with
  | none => Except.error PersistError.ioError
  | some b => Except.ok b

/-- Restore as it acts on the two checkpoint files: load the primary
location and run Brain.restore on the outcome. -/
def restoreFromFiles (fresh : Brain α) (fs : Files α) : Brain α :=
  Brain.restore fresh (loadPrimary fs)

variable {α : Type}
variable (stepF : Level → List ℚ → ℚ → ℚ → Level × List ℚ)
variable (updateF : α → ℚ → α × ℚ)

/-- The bottom-up pass of Brain.sense_act_learn (brain.py lines 130-138):
starting from the concatenated element activities, each level in order is
stepped with the current element activities, the reward and the
satisfaction, and its output sequence activities become the next level's
element activities. Returns the stepped levels and the final output. -/
def bottomUp : List Level → List ℚ → ℚ → ℚ → List Level × List ℚ
  | [], ea, _, _ => ([], ea)
  | l :: rest, ea, reward, sat =>
      let p := stepF l ea reward sat
      let q := bottomUp rest p.2 reward sat
      (p.1 :: q.1, q.2)

/-- The top-down pass of Brain.sense_act_learn (brain.py lines 141-142):
for every index i from the second-highest down to 0, level i's
sequence goals are set to level i+1's element goals; the top level is not
written. -/
def topDown : List Level → List Level
  | [] => []
  | [l] => [l]
  | l :: l2 :: rest =>
      { l with sequenceGoals := l2.elementGoals } :: topDown (l2 :: rest)

/-- The observable outcome of one sense_act_learn call: the post-call
brain, the returned (stripped) action vector, whether the periodic backup
was triggered on this call, and the element-activity vector that was fed
to level 0. -/
structure StepOut (α : Type) where
  brain : Brain α
  ret : List ℚ
  trig : Bool
  l0input : List ℚ

/-- Brain.sense_act_learn (brain.py lines 88-160): increments the
timestep; updates the affect tracker to obtain the satisfaction; feeds the
concatenation of the sensors with the stored previous action vector to the
bottom-up pass over all levels; runs the top-down goal pass; stores level
0's element goals as the new full action vector; triggers a backup when
the new timestep is an exact multiple of backup_interval; and returns the
action vector with its last (reserved do-nothing) entry stripped. -/
def Brain.sense_act_learn (b : Brain α) (sensors : List ℚ) (reward : ℚ) :
    StepOut α :=
  let t := b.timestep + 1
  let ar := updateF b.affect reward
  let elementActivities := sensors ++ b.actions
  let bu := bottomUp stepF b.levels elementActivities reward ar.2
  let levels2 := topDown bu.1
  let actions2 :=
    match levels2 with
    | [] => []
    | l0 :: _ => l0.elementGoals
  { brain :=
      { b with
        timestep := t
      , affect := ar.1
      , satisfaction := ar.2
      , levels := levels2
      , actions := actions2 }
  , ret := actions2.dropLast
  , trig := t % b.backup_interval == 0
  , l0input := elementActivities }

/-- Repeated calls to sense_act_learn from a starting brain, one call per
(sensors, reward) input pair. -/
def runBrain : Brain α → List (List ℚ × ℚ) → Brain α
  | b, [] => b
  | b, input :: rest =>
      runBrain (Brain.sense_act_learn stepF updateF b input.1 input.2).brain
        rest

/-- The observable outcome of the call number i+1 (zero-based index i) in
a run over the given input list. -/
def stepOutAt (b0 : Brain α) (inputs : List (List ℚ × ℚ)) (i : Nat) :
    StepOut α :=
  Brain.sense_act_learn stepF updateF
    (runBrain stepF updateF b0 (inputs.take i))
    (inputs.getD i ([], 0)).1 (inputs.getD i ([], 0)).2

/-- A fuzzy-binary vector all of whose entries are exactly 0 or 1. -/
def BinaryVec (v : List ℚ) : Prop := ∀ x ∈ v, x = 0 ∨ x = 1

/-- Modelled from the spec: level.py is not among the analysed sources,
and the spec reads level 0's element goals as the full binary action
vector of length num_actions including the reserved slot. This predicate
states that contract for a level-step implementation: after any step, the
element goals form a binary vector of length numActions. -/
def LevelStepContract (f : Level → List ℚ → ℚ → ℚ → Level × List ℚ)
    (numActions : Nat) : Prop :=
  ∀ l ea reward sat,
    ((f l ea reward sat).1).elementGoals.length = numActions ∧
    BinaryVec ((f l ea reward sat).1).elementGoals

/-- A concrete level-step implementation used to instantiate witnesses:
it always writes the fixed binary goal vector of width three. -/
def constGoalsStep : Level → List ℚ → ℚ → ℚ → Level × List ℚ :=
  fun l ea _ _ => ({ l with elementGoals := [1, 0, 1] }, ea)

/-- A concrete affect-update implementation used to instantiate witnesses:
state Unit, satisfaction always 0. -/
def unitUpdate : Unit → ℚ → Unit × ℚ :=
  fun _ _ => ((), 0)

/-- The freshly initialised brain used in the persistence scenarios. -/
def freshBrain : Brain Unit := Brain.init 1 1 ()

/-- A previously saved brain with the same dimensions as freshBrain but
five timesteps of accumulated state. -/
def savedBrain : Brain Unit := { Brain.init 1 1 () with timestep := 5 }

/-- The bottom-up pass steps every level once: it preserves the length of
the level list. -/
theorem bottomUp_length (ls : List Level) :
    ∀ (ea : List ℚ) (reward sat : ℚ),
      (bottomUp stepF ls ea reward sat).1.length = ls.length := by
  induction ls with
  | nil => intro ea reward sat; rfl
  | cons l rest ih =>
      intro ea reward sat
      simp [bottomUp, ih]

/-- Evaluating the bottom-up pass on a single-level stack. -/
theorem bottomUp_singleton (l : Level) (ea : List ℚ) (reward sat : ℚ) :
    bottomUp stepF [l] ea reward sat
      = ([(stepF l ea reward sat).1], (stepF l ea reward sat).2) := rfl

/-- The top-down pass preserves the length of the level list. -/
theorem topDown_length : (ls : List Level) → (topDown ls).length = ls.length
  | [] => rfl
  | [_] => rfl
  | _ :: l2 :: rest => by
      have ih := topDown_length (l2 :: rest)
      simp only [topDown, List.length_cons] at ih ⊢
      omega

/-- The top-down pass never changes any level's element goals. -/
theorem topDown_get_elementGoals : (ls : List Level) → (i : Nat) →
    (h1 : i < (topDown ls).length) → (h2 : i < ls.length) →
    ((topDown ls).get ⟨i, h1⟩).elementGoals = (ls.get ⟨i, h2⟩).elementGoals
  | [], i, _, h2 => absurd h2 (by simp)
  | [_], 0, _, _ => rfl
  | [_], _ + 1, _, h2 => by simp at h2
  | _ :: _ :: _, 0, _, _ => rfl
  | l :: l2 :: rest, i + 1, h1, h2 => by
      have h1b : i < (topDown (l2 :: rest)).length := by
        have h1c := Nat.lt_of_succ_lt_succ h1
        simpa [topDown] using h1c
      have h2b : i < (l2 :: rest).length := Nat.lt_of_succ_lt_succ h2
      calc ((topDown (l :: l2 :: rest)).get ⟨i + 1, h1⟩).elementGoals
          = ((topDown (l2 :: rest)).get ⟨i, h1b⟩).elementGoals := rfl
        _ = ((l2 :: rest).get ⟨i, h2b⟩).elementGoals :=
            topDown_get_elementGoals (l2 :: rest) i h1b h2b
        _ = ((l :: l2 :: rest).get ⟨i + 1, h2⟩).elementGoals := rfl

/-- After the top-down pass, every level below the top carries as its
sequence goals the element goals of the level immediately above it. -/
theorem topDown_get_sequenceGoals : (ls : List Level) → (i : Nat) →
    (h1 : i < (topDown ls).length) → (h2 : i + 1 < ls.length) →
    ((topDown ls).get ⟨i, h1⟩).sequenceGoals
      = (ls.get ⟨i + 1, h2⟩).elementGoals
  | [], _, _, h2 => absurd h2 (by simp)
  | [_], i, _, h2 => by simp at h2
  | _ :: _ :: _, 0, _, _ => rfl
  | l :: l2 :: rest, i + 1, h1, h2 => by
      have h1b : i < (topDown (l2 :: rest)).length := by
        have h1c := Nat.lt_of_succ_lt_succ h1
        simpa [topDown] using h1c
      have h2b : i + 1 < (l2 :: rest).length := Nat.lt_of_succ_lt_succ h2
      calc ((topDown (l :: l2 :: rest)).get ⟨i + 1, h1⟩).sequenceGoals
          = ((topDown (l2 :: rest)).get ⟨i, h1b⟩).sequenceGoals := rfl
        _ = ((l2 :: rest).get ⟨i + 1, h2b⟩).elementGoals :=
            topDown_get_sequenceGoals (l2 :: rest) i h1b h2b
        _ = ((l :: l2 :: rest).get ⟨i + 2, h2⟩).elementGoals := rfl

/-- The top-down pass leaves the top level untouched: the last element of
the stack is unchanged. -/
theorem topDown_getLast : (ls : List Level) →
    (topDown ls).getLast? = ls.getLast?
  | [] => rfl
  | [_] => rfl
  | l :: l2 :: rest => by
      have ih := topDown_getLast (l2 :: rest)
      have heq : topDown (l :: l2 :: rest)
          = { l with sequenceGoals := l2.elementGoals } :: topDown (l2 :: rest) :=
        rfl
      rw [heq]
      cases htd : topDown (l2 :: rest) with
      | nil =>
          exfalso
          have hlen := topDown_length (l2 :: rest)
          rw [htd] at hlen
          simp at hlen
      | cons y ys =>
          rw [htd] at ih
          rw [List.getLast?_cons_cons, ih, List.getLast?_cons_cons]

/-- sense_act_learn increments the timestep by exactly one. -/
theorem sal_timestep (b : Brain α) (s : List ℚ) (r : ℚ) :
    (Brain.sense_act_learn stepF updateF b s r).brain.timestep
      = b.timestep + 1 := rfl

/-- sense_act_learn leaves the configured sensor count unchanged. -/
theorem sal_num_sensors (b : Brain α) (s : List ℚ) (r : ℚ) :
    (Brain.sense_act_learn stepF updateF b s r).brain.num_sensors
      = b.num_sensors := rfl

/-- sense_act_learn leaves the configured action count unchanged. -/
theorem sal_num_actions (b : Brain α) (s : List ℚ) (r : ℚ) :
    (Brain.sense_act_learn stepF updateF b s r).brain.num_actions
      = b.num_actions := rfl

/-- sense_act_learn leaves the backup interval unchanged. -/
theorem sal_backup_interval (b : Brain α) (s : List ℚ) (r : ℚ) :
    (Brain.sense_act_learn stepF updateF b s r).brain.backup_interval
      = b.backup_interval := rfl

/-- The levels stored by sense_act_learn are the top-down pass applied to
the outcome of the bottom-up pass over the previous levels, fed with the
sensors concatenated with the previously stored action vector. -/
theorem sal_levels (b : Brain α) (s : List ℚ) (r : ℚ) :
    (Brain.sense_act_learn stepF updateF b s r).brain.levels
      = topDown (bottomUp stepF b.levels (s ++ b.actions) r
          (updateF b.affect r).2).1 := rfl

/-- sense_act_learn preserves the number of levels. -/
theorem sal_levels_length (b : Brain α) (s : List ℚ) (r : ℚ) :
    (Brain.sense_act_learn stepF updateF b s r).brain.levels.length
      = b.levels.length := by
  rw [sal_levels, topDown_length, bottomUp_length]

/-- A run adds one timestep per input pair. -/
theorem runBrain_timestep : (inputs : List (List ℚ × ℚ)) →
    (b : Brain α) →
    (runBrain stepF updateF b inputs).timestep = b.timestep + inputs.length
  | [], _ => rfl
  | input :: rest, b => by
      have ih := runBrain_timestep rest
        (Brain.sense_act_learn stepF updateF b input.1 input.2).brain
      have hs := sal_timestep stepF updateF b input.1 input.2
      simp only [runBrain] at ih ⊢
      rw [ih, hs]
      simp only [List.length_cons]
      omega

/-- A run preserves the configured dimensions, the backup interval and the
number of levels. -/
theorem runBrain_preserved : (inputs : List (List ℚ × ℚ)) →
    (b : Brain α) →
    (runBrain stepF updateF b inputs).num_sensors = b.num_sensors ∧
    (runBrain stepF updateF b inputs).num_actions = b.num_actions ∧
    (runBrain stepF updateF b inputs).backup_interval = b.backup_interval ∧
    (runBrain stepF updateF b inputs).levels.length = b.levels.length
  | [], _ => ⟨rfl, rfl, rfl, rfl⟩
  | input :: rest, b => by
      have ih := runBrain_preserved rest
        (Brain.sense_act_learn stepF updateF b input.1 input.2).brain
      have hl := sal_levels_length stepF updateF b input.1 input.2
      simp only [runBrain] at ih ⊢
      exact ⟨ih.1, ih.2.1, ih.2.2.1, ih.2.2.2.trans hl⟩

/-- Running one more input from a prefix of the input list is the same as
applying sense_act_learn to the state after the prefix. -/
theorem runBrain_take_succ : (inputs : List (List ℚ × ℚ)) → (i : Nat) →
    (b : Brain α) → i < inputs.length →
    runBrain stepF updateF b (inputs.take (i + 1))
      = (Brain.sense_act_learn stepF updateF
          (runBrain stepF updateF b (inputs.take i))
          (inputs.getD i ([], 0)).1 (inputs.getD i ([], 0)).2).brain
  | [], _, _, h => by simp at h
  | x :: rest, 0, b, _ => by
      simp [runBrain]
  | x :: rest, j + 1, b, h => by
      have ih := runBrain_take_succ rest j
        (Brain.sense_act_learn stepF updateF b x.1 x.2).brain
        (by simpa using Nat.lt_of_succ_lt_succ h)
      simp only [List.take_succ_cons, List.getD_cons_succ, runBrain] at ih ⊢
      exact ih

/-- Claim C2: the Brain timestep field equals 0 immediately after
construction, every call to sense_act_learn increments it by exactly 1,
and after n calls the timestep equals n. -/
theorem C2_timestep_counts_calls (ns na : Nat) (a0 : α) :
    (Brain.init ns na a0).timestep = 0 ∧
    (∀ (b : Brain α) (s : List ℚ) (r : ℚ),
      (Brain.sense_act_learn stepF updateF b s r).brain.timestep
        = b.timestep + 1) ∧
    (∀ inputs : List (List ℚ × ℚ),
      (runBrain stepF updateF (Brain.init ns na a0) inputs).timestep
        = inputs.length) := by
  refine ⟨rfl, fun b s r => sal_timestep stepF updateF b s r, fun inputs => ?_⟩
  rw [runBrain_timestep]
  simp [Brain.init]

/-- Claim C10: the levels list has length exactly 1 from construction
onward: construction creates exactly one Level, with numElements equal to
num_sensors + num_actions (the internal count, configured plus one) and
numSequences equal to three times that; every sense_act_learn call
preserves the number of levels; any run from a fresh brain keeps exactly
one level; and on a single-level stack the top-down goal-propagation loop
executes zero iterations, leaving the stack unchanged. -/
theorem C10_single_level (ns na : Nat) (a0 : α)
    (inputs : List (List ℚ × ℚ)) :
    (Brain.init ns na a0).levels
      = [Level.init 0 (ns + (na + 1)) (3 * (ns + (na + 1)))] ∧
    (∀ (b : Brain α) (s : List ℚ) (r : ℚ),
      (Brain.sense_act_learn stepF updateF b s r).brain.levels.length
        = b.levels.length) ∧
    (runBrain stepF updateF (Brain.init ns na a0) inputs).levels.length
      = 1 ∧
    (∀ l : Level, topDown [l] = [l]) := by
  refine ⟨rfl, fun b s r => sal_levels_length stepF updateF b s r, ?_,
    fun l => rfl⟩
  rw [(runBrain_preserved stepF updateF inputs (Brain.init ns na a0)).2.2.2]
  rfl

/-- Claim C4: after every completed call to sense_act_learn, the stored
levels are the top-down pass applied to the completed bottom-up pass (the
top-down pass starts only from the fully stepped stack); for every index i
below the top, level i's sequence goals equal level i+1's element goals as
observed at the end of the call; element goals are exactly those produced
by the bottom-up step; and the top level is not written by the pass. -/
theorem C4_topdown_goal_propagation (b : Brain α) (sensors : List ℚ)
    (reward : ℚ) :
    (Brain.sense_act_learn stepF updateF b sensors reward).brain.levels
      = topDown (bottomUp stepF b.levels (sensors ++ b.actions) reward
          (updateF b.affect reward).2).1 ∧
    (∀ (i : Nat)
      (h1 : i < (Brain.sense_act_learn stepF updateF b sensors
        reward).brain.levels.length)
      (h2 : i + 1 < (Brain.sense_act_learn stepF updateF b sensors
        reward).brain.levels.length),
      ((Brain.sense_act_learn stepF updateF b sensors
        reward).brain.levels.get ⟨i, h1⟩).sequenceGoals
        = ((Brain.sense_act_learn stepF updateF b sensors
            reward).brain.levels.get ⟨i + 1, h2⟩).elementGoals) ∧
    (∀ (i : Nat)
      (h1 : i < (Brain.sense_act_learn stepF updateF b sensors
        reward).brain.levels.length)
      (h2 : i < (bottomUp stepF b.levels (sensors ++ b.actions) reward
        (updateF b.affect reward).2).1.length),
      ((Brain.sense_act_learn stepF updateF b sensors
        reward).brain.levels.get ⟨i, h1⟩).elementGoals
        = ((bottomUp stepF b.levels (sensors ++ b.actions) reward
            (updateF b.affect reward).2).1.get ⟨i, h2⟩).elementGoals) ∧
    (Brain.sense_act_learn stepF updateF b sensors
        reward).brain.levels.getLast?
      = (bottomUp stepF b.levels (sensors ++ b.actions) reward
          (updateF b.affect reward).2).1.getLast? := by
  refine ⟨rfl, ?_, ?_, ?_⟩
  · intro i h1 h2
    have h1b : i < (topDown (bottomUp stepF b.levels (sensors ++ b.actions)
        reward (updateF b.affect reward).2).1).length := h1
    have h2b : i + 1 < (topDown (bottomUp stepF b.levels
        (sensors ++ b.actions) reward
        (updateF b.affect reward).2).1).length := h2
    have h2c : i + 1 < (bottomUp stepF b.levels (sensors ++ b.actions)
        reward (updateF b.affect reward).2).1.length := by
      rwa [topDown_length] at h2b
    exact (topDown_get_sequenceGoals _ i h1b h2c).trans
      (topDown_get_elementGoals _ (i + 1) h2b h2c).symm
  · intro i h1 h2
    have h1b : i < (topDown (bottomUp stepF b.levels (sensors ++ b.actions)
        reward (updateF b.affect reward).2).1).length := h1
    exact topDown_get_elementGoals _ i h1b h2
  · exact topDown_getLast _

/-- Claim C4 witness: the stored levels of a concrete call are the
top-down pass applied to the completed bottom-up pass. -/
theorem C4_witness :
    (Brain.sense_act_learn constGoalsStep unitUpdate (Brain.init 2 2 ())
        [1, 0] 0).brain.levels
      = topDown (bottomUp constGoalsStep (Brain.init 2 2 ()).levels
          ([1, 0] ++ (Brain.init 2 2 ()).actions) 0
          (unitUpdate (Brain.init 2 2 ()).affect 0).2).1 :=
  (C4_topdown_goal_propagation constGoalsStep unitUpdate
    (Brain.init 2 2 ()) [1, 0] 0).1

/-- Claim C3: the element-activity vector fed to level 0 by the call at
timestep t is the concatenation of the sensors supplied to that call with
the full action vector stored at the end of timestep t-1; the seed action
vector present before the first call is the all-zeros vector of length
num_actions; the brain after the first i+1 inputs is exactly the brain
produced by that call; and the stored action vector is the full vector of
which the call returned the last-entry-stripped copy. -/
theorem C3_element_activities (ns na : Nat) (a0 : α)
    (inputs : List (List ℚ × ℚ)) (i : Nat) (h : i < inputs.length) :
    (stepOutAt stepF updateF (Brain.init ns na a0) inputs i).l0input
      = (inputs.getD i ([], 0)).1
        ++ (runBrain stepF updateF (Brain.init ns na a0)
              (inputs.take i)).actions ∧
    (Brain.init ns na a0).actions = List.replicate (na + 1) 0 ∧
    runBrain stepF updateF (Brain.init ns na a0) (inputs.take (i + 1))
      = (stepOutAt stepF updateF (Brain.init ns na a0) inputs i).brain ∧
    (stepOutAt stepF updateF (Brain.init ns na a0) inputs i).ret
      = (stepOutAt stepF updateF (Brain.init ns na a0) inputs
          i).brain.actions.dropLast := by
  exact ⟨rfl, rfl,
    runBrain_take_succ stepF updateF inputs i (Brain.init ns na a0) h, rfl⟩

/-- Claim C3 witness: for a concrete two-sensor, two-action brain the
first call feeds level 0 the two sensor readings followed by the
three-entry zero seed action vector. -/
theorem C3_witness :
    (stepOutAt constGoalsStep unitUpdate (Brain.init 2 2 ())
        [([1, 0], 0)] 0).l0input = [1, 0, 0, 0, 0] :=
  ((C3_element_activities constGoalsStep unitUpdate 2 2 () [([1, 0], 0)] 0
    (by decide)).1).trans (by decide)

/-- Claim C9: in a run from a fresh brain, the call with zero-based index
i (reaching timestep i+1) triggers a checkpoint backup exactly when i+1 is
an exact multiple of the configured backup interval; on all other
timesteps no backup occurs. -/
theorem C9_backup_trigger (ns na : Nat) (a0 : α)
    (inputs : List (List ℚ × ℚ)) (i : Nat) (h : i < inputs.length) :
    ((stepOutAt stepF updateF (Brain.init ns na a0) inputs i).trig = true
      ↔ (i + 1) % (Brain.init ns na a0).backup_interval = 0) := by
  have hts : (runBrain stepF updateF (Brain.init ns na a0)
      (inputs.take i)).timestep = i := by
    rw [runBrain_timestep]
    simp only [Brain.init, List.length_take]
    omega
  have hbi : (runBrain stepF updateF (Brain.init ns na a0)
      (inputs.take i)).backup_interval = 100000 :=
    ((runBrain_preserved stepF updateF (inputs.take i)
      (Brain.init ns na a0)).2.2.1).trans rfl
  show ((((runBrain stepF updateF (Brain.init ns na a0)
      (inputs.take i)).timestep + 1)
        % (runBrain stepF updateF (Brain.init ns na a0)
            (inputs.take i)).backup_interval == 0) = true) ↔ _
  rw [hts, hbi]
  simp [Brain.init]

/-- Claim C9 witness: the first call of a concrete run reaches timestep 1
and triggers no backup, since 1 is not a multiple of 100000. -/
theorem C9_witness :
    ((stepOutAt constGoalsStep unitUpdate (Brain.init 2 2 ())
        [([1, 0], 0)] 0).trig = true
      ↔ 1 % (Brain.init 2 2 ()).backup_interval = 0) :=
  C9_backup_trigger constGoalsStep unitUpdate 2 2 () [([1, 0], 0)] 0
    (by decide)

/-- Claim C1: a call to sense_act_learn on any brain reachable from a
fresh one, given a valid sensors vector (length num_sensors, entries
between 0 and 1) and any reward, returns an action vector of length
exactly num_actions - 1 (the configured action count) whose entries are
all exactly 0 or 1, provided the level collaborator meets its spec
contract of exposing binary element goals of length num_actions. -/
theorem C1_action_vector (ns na : Nat) (a0 : α)
    (inputs : List (List ℚ × ℚ)) (sensors : List ℚ) (reward : ℚ)
    (hc : LevelStepContract stepF (na + 1))
    (_hs : sensors.length = ns)
    (_hr : ∀ x ∈ sensors, 0 ≤ x ∧ x ≤ 1) :
    (runBrain stepF updateF (Brain.init ns na a0) inputs).num_actions - 1
      = na ∧
    (Brain.sense_act_learn stepF updateF
        (runBrain stepF updateF (Brain.init ns na a0) inputs) sensors
        reward).ret.length = na ∧
    BinaryVec (Brain.sense_act_learn stepF updateF
        (runBrain stepF updateF (Brain.init ns na a0) inputs) sensors
        reward).ret := by
  have hpres := runBrain_preserved stepF updateF inputs (Brain.init ns na a0)
  have hna : (runBrain stepF updateF (Brain.init ns na a0)
      inputs).num_actions = na + 1 := hpres.2.1.trans rfl
  have hlev : (runBrain stepF updateF (Brain.init ns na a0)
      inputs).levels.length = 1 := hpres.2.2.2.trans rfl
  obtain ⟨l, hl⟩ := List.length_eq_one.mp hlev
  have hret : (Brain.sense_act_learn stepF updateF
      (runBrain stepF updateF (Brain.init ns na a0) inputs) sensors
      reward).ret
    = ((stepF l
        (sensors ++ (runBrain stepF updateF (Brain.init ns na a0)
          inputs).actions) reward
        (updateF (runBrain stepF updateF (Brain.init ns na a0)
          inputs).affect reward).2).1).elementGoals.dropLast := by
    simp only [Brain.sense_act_learn, hl, bottomUp_singleton, topDown]
  have hcl := hc l
    (sensors ++ (runBrain stepF updateF (Brain.init ns na a0)
      inputs).actions) reward
    (updateF (runBrain stepF updateF (Brain.init ns na a0)
      inputs).affect reward).2
  refine ⟨by omega, ?_, ?_⟩
  · rw [hret, List.length_dropLast, hcl.1]
    omega
  · rw [hret]
    intro x hx
    exact hcl.2 x (List.dropLast_subset _ hx)

/-- Claim C1 witness: with a concrete contract-satisfying level step, a
fresh two-sensor, two-action brain returns a two-entry binary action
vector. -/
theorem C1_witness :
    (runBrain constGoalsStep unitUpdate (Brain.init 2 2 ()) []).num_actions
        - 1 = 2 ∧
    (Brain.sense_act_learn constGoalsStep unitUpdate
        (runBrain constGoalsStep unitUpdate (Brain.init 2 2 ()) [])
        [1, 0] 0).ret.length = 2 ∧
    BinaryVec (Brain.sense_act_learn constGoalsStep unitUpdate
        (runBrain constGoalsStep unitUpdate (Brain.init 2 2 ()) [])
        [1, 0] 0).ret :=
  C1_action_vector constGoalsStep unitUpdate 2 2 () [] [1, 0] 0
    (fun _ _ _ _ =>
      ⟨rfl, (by decide : ∀ x ∈ ([1, 0, 1] : List ℚ), x = 0 ∨ x = 1)⟩) rfl
    (by decide)

/-- Claim C2 witness: a concrete one-call run reaches timestep 1. -/
theorem C2_witness :
    (runBrain constGoalsStep unitUpdate (Brain.init 2 2 ())
        [([1, 0], 0)]).timestep = 1 :=
  (C2_timestep_counts_calls constGoalsStep unitUpdate 2 2 ()).2.2
    [([1, 0], 0)]

/-- Claim C10 witness: a concrete one-call run still has exactly one
level. -/
theorem C10_witness :
    (runBrain constGoalsStep unitUpdate (Brain.init 2 2 ())
        [([1, 0], 0)]).levels.length = 1 :=
  (C10_single_level constGoalsStep unitUpdate 2 2 () [([1, 0], 0)]).2.2.1

/-- Claim C5: on a load failure of the primary checkpoint file (missing
file or deserialization error) restore returns no restored state (the spec
None, realised by the code as returning the fresh brain itself), no
exception escapes (the embedding is a total function), and the freshly
initialised state is kept unmodified. -/
theorem C5_restore_load_failure (fresh : Brain α) (e : PersistError) :
    Brain.restore fresh (Except.error e) = fresh ∧
    Brain.restoreAccepted fresh (Except.error e) = none :=
  ⟨rfl, rfl⟩

/-- Claim C5 witness: restore on a concrete fresh brain and an
input/output load failure returns that fresh brain and accepts nothing. -/
theorem C5_witness :
    Brain.restore (Brain.init 1 1 ()) (Except.error PersistError.ioError)
        = Brain.init 1 1 () ∧
    Brain.restoreAccepted (Brain.init 1 1 ())
        (Except.error PersistError.ioError) = none :=
  C5_restore_load_failure (Brain.init 1 1 ()) PersistError.ioError

/-- Claim C6: a successfully loaded checkpoint is returned as the
authoritative state exactly when its num_sensors and num_actions both
equal the live configuration's; on any mismatch the loaded state is
discarded, the spec-view outcome is none, and the fresh state is what
restore returns. -/
theorem C6_restore_validation (fresh loaded : Brain α) :
    (Brain.restore fresh (Except.ok loaded) = loaded ↔
        loaded.num_sensors = fresh.num_sensors ∧
        loaded.num_actions = fresh.num_actions) ∧
    (Brain.restoreAccepted fresh (Except.ok loaded) = some loaded ↔
        loaded.num_sensors = fresh.num_sensors ∧
        loaded.num_actions = fresh.num_actions) ∧
    (¬(loaded.num_sensors = fresh.num_sensors ∧
        loaded.num_actions = fresh.num_actions) →
      Brain.restore fresh (Except.ok loaded) = fresh ∧
      Brain.restoreAccepted fresh (Except.ok loaded) = none) := by
  by_cases h : loaded.num_sensors = fresh.num_sensors ∧
      loaded.num_actions = fresh.num_actions
  · refine ⟨?_, ?_, fun hn => absurd h hn⟩
    · simp [Brain.restore, h]
    · simp [Brain.restoreAccepted, h]
  · refine ⟨?_, ?_, fun _ =>
      ⟨by simp [Brain.restore, h], by simp [Brain.restoreAccepted, h]⟩⟩
    · simp only [Brain.restore, if_neg h]
      constructor
      · intro hf
        exact absurd ⟨congrArg Brain.num_sensors hf.symm,
          congrArg Brain.num_actions hf.symm⟩ h
      · intro hm
        exact absurd hm h
    · simp only [Brain.restoreAccepted, if_neg h]
      constructor
      · intro hf
        simp at hf
      · intro hm
        exact absurd hm h

/-- Claim C6 witness: a checkpoint saved under four sensors is rejected by
a live configuration with five sensors; restore keeps the fresh brain and
accepts nothing. -/
theorem C6_witness :
    Brain.restore (Brain.init 5 2 ()) (Except.ok (Brain.init 4 2 ()))
        = Brain.init 5 2 () ∧
    Brain.restoreAccepted (Brain.init 5 2 ())
        (Except.ok (Brain.init 4 2 ())) = none :=
  (C6_restore_validation (Brain.init 5 2 ()) (Brain.init 4 2 ())).2.2
    (by decide)

/-- Claim C7: backup surfaces any caught write failure as success false
and returns success true exactly when both writes completed; as a total
function of the two write outcomes it propagates nothing. -/
theorem C7_backup_success (w1 : Except PersistError Unit)
    (w2 : Unit → Except PersistError Unit) :
    Brain.backup w1 w2 = true ↔
      w1 = Except.ok () ∧ w2 () = Except.ok () := by
  cases w1 with
  | error e => simp [Brain.backup]
  | ok u =>
      cases hw : w2 () with
      | error e => simp [Brain.backup, hw]
      | ok v => simp [Brain.backup, hw]

/-- Claim C7 witness: with both concrete writes completing, backup
reports success. -/
theorem C7_witness :
    Brain.backup (Except.ok ())
        (fun _ => (Except.ok () : Except PersistError Unit)) = true ↔
      (Except.ok () : Except PersistError Unit) = Except.ok () ∧
      (fun _ : Unit => (Except.ok () : Except PersistError Unit)) ()
        = Except.ok () :=
  C7_backup_success (Except.ok ())
    (fun _ => (Except.ok () : Except PersistError Unit))

/-- Claim C8 counterexample: after a completed save of savedBrain the
backup file holds the full saved state, yet when the primary file is then
missing or corrupt restore returns the fresh brain, not the saved one:
restore never falls back to the backup file on its own. -/
theorem C8_counterexample :
    (backupFiles savedBrain (Files.mk none none)).bak = some savedBrain ∧
    restoreFromFiles freshBrain (Files.mk none (some savedBrain))
        = freshBrain ∧
    freshBrain ≠ savedBrain := by
  refine ⟨rfl, rfl, ?_⟩
  decide

/-- Claim C8 amended: every save writes the full state twice, first to the
primary location and then, as a separate write, to the backup location, so
the backup file independently holds a loadable full copy; but restore
reads only the primary file, returning the fresh brain whenever the
primary is missing or corrupt; recovery from the backup copy is a manual
step: once the backup content is promoted to the primary location, restore
returns the saved state, its dimensions matching the live configuration. -/
theorem C8_dual_write_manual_fallback (fresh s : Brain α) (fs : Files α)
    (b : Option (Brain α))
    (hs : s.num_sensors = fresh.num_sensors)
    (ha : s.num_actions = fresh.num_actions) :
    backupFiles s fs = Files.mk (some s) (some s) ∧
    restoreFromFiles fresh (Files.mk none b) = fresh ∧
    restoreFromFiles fresh (Files.mk (backupFiles s fs).bak none) = s := by
  refine ⟨rfl, rfl, ?_⟩
  simp [restoreFromFiles, loadPrimary, backupFiles, Brain.restore, hs, ha]

/-- Claim C8 witness for the amended statement: saving the concrete
savedBrain fills both files; restore on a missing primary keeps the
concrete fresh brain; and after promoting the backup copy to the primary
location restore returns savedBrain. -/
theorem C8_witness :
    backupFiles savedBrain (Files.mk none none)
        = Files.mk (some savedBrain) (some savedBrain) ∧
    restoreFromFiles freshBrain (Files.mk none none) = freshBrain ∧
    restoreFromFiles freshBrain
        (Files.mk (backupFiles savedBrain (Files.mk none none)).bak none)
      = savedBrain :=
  C8_dual_write_manual_fallback freshBrain savedBrain (Files.mk none none)
    none rfl rfl

end Becca
